import Mathlib

/-!
Shallow embedding of `PipelineQuantizationConfig` from
`src/diffusers/quantizers/__init__.py`, together with proofs about its
construction-time validation and its per-module quantization-config
resolution.  The two backend registries (`AUTO_QUANTIZATION_CONFIG_MAPPING`
in diffusers and in transformers) are modelled as association lists from
backend name to a configuration class, a class being reduced to what the
code observes of it: an identity and the parameter names of its
constructor.  Raised `ValueError`s and `KeyError`s are modelled as
`Except` errors, one constructor per raise site, each carrying exactly the
data its message interpolates.
-/

namespace DiffusersQuantizers

/-- Values stored in Python keyword-argument dictionaries. -/
inductive PyValue where
  | int (n : Int)
  | str (s : String)
  | bool (b : Bool)
  | pynone
deriving DecidableEq, Repr

/-- Keyword-argument dictionary (`dict[str, Any]`), as an association list. -/
abbrev Kwargs := List (String × PyValue)

/-- Association-list lookup with string keys, first match wins (Python dict
lookup; dict keys are unique, so first match is the match). -/
def lookupKey {β : Type} (k : String) : List (String × β) → Option β
  | [] => none
  | (a, b) :: rest => if a = k then some b else lookupKey k rest

/-- Quantization configuration class as a registry exposes it to this code:
an identity and the parameter names of its constructor, `self` excluded. -/
structure ConfigClass where
  id : String
  params : List String
deriving DecidableEq, Repr

/-- Registry `AUTO_QUANTIZATION_CONFIG_MAPPING`: backend name to config class. -/
abbrev Registry := List (String × ConfigClass)

/-- External world seen by the code: the diffusers registry is always
importable; the transformers registry exists exactly when
`is_transformers_available()` holds. -/
structure Env where
  diffusersRegistry : Registry
  transformersRegistry : Option Registry
deriving DecidableEq, Repr

/-- Availability query `is_transformers_available()`. -/
def Env.transformersAvailable (env : Env) : Bool :=
  env.transformersRegistry.isSome

/-- Sanity condition on the modelled world: a present transformers registry
is non-empty, as is true of the actual library, whose registry is a fixed
non-empty table. -/
def Env.wellFormed (env : Env) : Bool :=
  match env.transformersRegistry with
  | some t => !t.isEmpty
  | none => true

/-- Per-module entry of `mapping`, reduced to the keys the code reads:
`config.get("quant_backend")` and `config.get("quant_kwargs", {})`. -/
structure MappingEntry where
  quant_backend : Option String
  quant_kwargs : Option Kwargs
deriving DecidableEq, Repr

/-- Instantiated configuration `quant_config_cls(**quant_kwargs)`, identified
by value: the class and the keyword arguments passed to it. -/
structure ConfigInstance where
  cls : ConfigClass
  kwargs : Kwargs
deriving DecidableEq, Repr

/-- Errors raised by the code, one constructor per raise site.
`backendNotFound` carries exactly what its message interpolates: the
offending backend, the transformers name list when included, and the
diffusers name list. -/
inductive QuantError where
  | mustProvideBackend
  | kwargsAndMappingNone
  | signatureMismatch
  | backendNotFound (backend : Option String)
      (availableTransformers : Option (List String))
      (availableDiffusers : List String)
  | transformersUnavailable
  | keyError (key : Option String)
deriving DecidableEq, Repr

/-- Attributes of a `PipelineQuantizationConfig` object after the `__init__`
normalisation `self.quant_kwargs = quant_kwargs or {}`. -/
structure PipelineQuantizationConfig where
  quant_backend : Option String
  quant_kwargs : Kwargs
  modules_to_quantize : Option (List String)
  mapping : Option (List (String × MappingEntry))
deriving DecidableEq, Repr

/-- Derived flag `self.is_granular = True if mapping is not None else False`. -/
def PipelineQuantizationConfig.is_granular (p : PipelineQuantizationConfig) : Bool :=
  p.mapping.isSome

/-- Python truthiness test `not quant_backend` on an optional string. -/
def strFalsy : Option String → Bool
  | none => true
  | some s => s.isEmpty

/-- Python truthiness test `not mapping` on the optional mapping. -/
def mappingFalsy : Option (List (String × MappingEntry)) → Bool
  | none => true
  | some m => m.isEmpty

/-- Python truthiness of `modules_to_quantize` (non-None and non-empty). -/
def filterTruthy : Option (List String) → Bool
  | none => false
  | some l => !l.isEmpty

/-- Membership test `module_name in modules_to_quantize`. -/
def filterContains : Option (List String) → String → Bool
  | none, _ => false
  | some l, m => l.contains m

/-- Membership test `quant_backend in registry`; a `None` backend is never a
key of these string-keyed registries. -/
def keyIn (reg : Registry) : Option String → Bool
  | none => false
  | some s => (lookupKey s reg).isSome

/-- Subscript `registry[quant_backend]`; a `KeyError` is modelled by `none`. -/
def getItem (reg : Registry) : Option String → Option ConfigClass
  | none => none
  | some s => lookupKey s reg

/-- Value of `available_backends_transformers` (lines 105-107): the key list
when the registry is present and truthy, otherwise `None`.  The error
message includes it only when it is a non-empty list. -/
def availableTransformersNames (env : Env) : Option (List String) :=
  match env.transformersRegistry with
  | some t => if t.isEmpty then none else some (t.map Prod.fst)
  | none => none

/-- Raise condition of `_check_backend_availability` (lines 110-112):
`(TRANSFORMERS and backend not in TRANSFORMERS) or backend not in DIFFUSERS`,
with Python short-circuit truthiness on the transformers table. -/
def backendRaises (env : Env) (quant_backend : Option String) : Bool :=
  (match env.transformersRegistry with
   | some t => !t.isEmpty && !(keyIn t quant_backend)
   | none => false) || !(keyIn env.diffusersRegistry quant_backend)

/-- Method `_check_backend_availability` (lines 95-117). -/
def check_backend_availability (env : Env) (quant_backend : Option String) :
    Except QuantError Unit :=
  if backendRaises env quant_backend then
    .error (.backendNotFound quant_backend (availableTransformersNames env)
      (env.diffusersRegistry.map Prod.fst))
  else
    .ok ()

/-- Equality of two parameter-name collections as Python `set`s. -/
def sameParamSet (a b : List String) : Bool :=
  a.all (fun x => b.contains x) && b.all (fun x => a.contains x)

/-- Method `_validate_init_kwargs_in_backends` (lines 60-87).  After the
availability check, `init_kwargs_transformers` is the transformers parameter
set when that registry is importable and `None` otherwise (line 70), and the
final test compares it with the diffusers parameter set; in the `None` case
that comparison `None != set(...)` is always true, so the method raises. -/
def validate_init_kwargs_in_backends (env : Env) (quant_backend : String) :
    Except QuantError Unit :=
  match check_backend_availability env (some quant_backend) with
  | .error e => .error e
  | .ok _ =>
    match env.transformersRegistry with
    | some t =>
      match lookupKey quant_backend t with
      | none => .error (.keyError (some quant_backend))
      | some tcls =>
        match lookupKey quant_backend env.diffusersRegistry with
        | none => .error (.keyError (some quant_backend))
        | some dcls =>
          if sameParamSet tcls.params dcls.params then .ok ()
          else .error .signatureMismatch
    | none =>
      match lookupKey quant_backend env.diffusersRegistry with
      | none => .error (.keyError (some quant_backend))
      | some _ => .error .signatureMismatch

/-- Method `_validate_mapping_args` (lines 89-93): check each entry's
`quant_backend` for availability, in iteration order. -/
def validate_mapping_args (env : Env) :
    List (String × MappingEntry) → Except QuantError Unit
  | [] => .ok ()
  | (_, entry) :: rest =>
    match check_backend_availability env entry.quant_backend with
    | .error e => .error e
    | .ok _ => validate_mapping_args env rest

/-- Sequencing of two fallible validation steps (a raise in the first
aborts the second). -/
def exceptSeq (a b : Except QuantError Unit) : Except QuantError Unit :=
  match a with
  | .error e => .error e
  | .ok _ => b

/-- Line 54-55: `_validate_init_kwargs_in_backends` runs iff
`quant_backend is not None`. -/
def validateTopBackend (env : Env) : Option String → Except QuantError Unit
  | some q => validate_init_kwargs_in_backends env q
  | none => .ok ()

/-- Line 57-58: `_validate_mapping_args` runs iff `mapping is not None`. -/
def validateMappingOpt (env : Env) :
    Option (List (String × MappingEntry)) → Except QuantError Unit
  | some m => validate_mapping_args env m
  | none => .ok ()

/-- Method `_validate_init_args` (lines 47-58). -/
def validate_init_args (env : Env) (p : PipelineQuantizationConfig) :
    Except QuantError Unit :=
  if !p.is_granular && strFalsy p.quant_backend then
    .error .mustProvideBackend
  else if p.quant_kwargs.isEmpty && mappingFalsy p.mapping then
    .error .kwargsAndMappingNone
  else
    exceptSeq (validateTopBackend env p.quant_backend)
      (validateMappingOpt env p.mapping)

/-- Attribute record built by `__init__` (lines 33-37) before validation. -/
def initPlan (quant_backend : Option String) (quant_kwargs : Option Kwargs)
    (modules_to_quantize : Option (List String))
    (mapping : Option (List (String × MappingEntry))) :
    PipelineQuantizationConfig :=
  { quant_backend := quant_backend
    quant_kwargs := quant_kwargs.getD []
    modules_to_quantize := modules_to_quantize
    mapping := mapping }

/-- Constructor `PipelineQuantizationConfig(...)`: build the attributes, run
`post_init` validation, and return the object or the raised error. -/
def construct (env : Env) (quant_backend : Option String)
    (quant_kwargs : Option Kwargs) (modules_to_quantize : Option (List String))
    (mapping : Option (List (String × MappingEntry))) :
    Except QuantError PipelineQuantizationConfig :=
  let p := initPlan quant_backend quant_kwargs modules_to_quantize mapping
  match validate_init_args env p with
  | .error e => .error e
  | .ok _ => .ok p

/-- Granular entry consulted at line 132: present iff the plan is granular
and `module_name` is a key of `mapping`. -/
def granularEntry (p : PipelineQuantizationConfig) (module_name : String) :
    Option MappingEntry :=
  match p.mapping with
  | some m => lookupKey module_name m
  | none => none

/-- Flag `should_quantize` of the global branch (lines 142-148). -/
def shouldQuantize (p : PipelineQuantizationConfig) (module_name : String) : Bool :=
  if filterTruthy p.modules_to_quantize &&
      filterContains p.modules_to_quantize module_name then
    true
  else if !p.is_granular && !filterTruthy p.modules_to_quantize then
    true
  else
    false

/-- Method `_resolve_quant_config` (lines 119-157): pick the registry for the
requested source, serve a granular entry when one covers the module, fall
back to the global backend when `should_quantize`, else return `None`. -/
def resolve_quant_config (env : Env) (p : PipelineQuantizationConfig)
    (is_diffusers : Bool) (module_name : String) :
    Except QuantError (Option ConfigInstance) :=
  match (if is_diffusers then some env.diffusersRegistry
         else env.transformersRegistry) with
  | none => .error .transformersUnavailable
  | some registry =>
    match granularEntry p module_name with
    | some entry =>
      match getItem registry entry.quant_backend with
      | none => .error (.keyError entry.quant_backend)
      | some cls => .ok (some { cls := cls, kwargs := entry.quant_kwargs.getD [] })
    | none =>
      if shouldQuantize p module_name then
        match getItem registry p.quant_backend with
        | none => .error (.keyError p.quant_backend)
        | some cls => .ok (some { cls := cls, kwargs := p.quant_kwargs })
      else
        .ok none

/-- Backend names referenced by a plan: the top-level backend when set, and
each mapping entry's backend in order. -/
def referencedBackends (p : PipelineQuantizationConfig) : List (Option String) :=
  (match p.quant_backend with
   | some q => [some q]
   | none => []) ++
  (match p.mapping with
   | some m => m.map (fun x => x.2.quant_backend)
   | none => [])

/-- Resolvability of a backend name in the registries the spec says are
consulted: always the diffusers registry, and the transformers registry
when that library is available. -/
def resolvableInConsulted (env : Env) (quant_backend : Option String) : Bool :=
  keyIn env.diffusersRegistry quant_backend &&
  (match env.transformersRegistry with
   | some t => keyIn t quant_backend
   | none => true)

/-- Predicate matching the spec's resolution rule (section 4.1), written in
the spec's words for the non-granular branch, amended so that an empty
inclusion list behaves like an absent one: quantize when a non-empty
`modules_to_quantize` list names the module, or when the list is absent or
empty and the plan is non-granular. -/
def specShouldQuantize (p : PipelineQuantizationConfig) (m : String) : Prop :=
  (∃ l, p.modules_to_quantize = some l ∧ l ≠ [] ∧ m ∈ l) ∨
  ((p.modules_to_quantize = none ∨ p.modules_to_quantize = some []) ∧ p.mapping = none)

theorem lookupKey_mem {β : Type} {k : String} {v : β} :
    ∀ {l : List (String × β)}, lookupKey k l = some v → (k, v) ∈ l := by
  intro l
  induction l with
  | nil => intro h; simp [lookupKey] at h
  | cons hd tl ih =>
    obtain ⟨a, b⟩ := hd
    intro h
    by_cases hak : a = k
    · subst hak
      simp [lookupKey] at h
      simp [h]
    · simp [lookupKey, hak] at h
      exact List.mem_cons_of_mem _ (ih h)

theorem exceptSeq_ok_iff {a b : Except QuantError Unit} :
    exceptSeq a b = .ok () ↔ a = .ok () ∧ b = .ok () := by
  cases a with
  | error e => simp [exceptSeq]
  | ok u => cases u; simp [exceptSeq]

theorem exceptSeq_error_iff {a b : Except QuantError Unit} {e : QuantError} :
    exceptSeq a b = .error e ↔ a = .error e ∨ (a = .ok () ∧ b = .error e) := by
  cases a with
  | error e' => simp [exceptSeq]
  | ok u => cases u; simp [exceptSeq]

theorem check_ok_iff {env : Env} {qb : Option String} :
    check_backend_availability env qb = .ok () ↔ backendRaises env qb = false := by
  unfold check_backend_availability
  split_ifs with h <;> simp [h]

theorem check_error_iff {env : Env} {qb : Option String} {e : QuantError} :
    check_backend_availability env qb = .error e ↔
      backendRaises env qb = true ∧
        e = .backendNotFound qb (availableTransformersNames env)
          (env.diffusersRegistry.map Prod.fst) := by
  unfold check_backend_availability
  split_ifs with h <;> simp [h, eq_comm]

theorem backendRaises_none {env : Env} : backendRaises env none = true := by
  unfold backendRaises
  cases env.transformersRegistry <;> simp [keyIn]

theorem raises_false_keyIn_diffusers {env : Env} {qb : Option String}
    (h : backendRaises env qb = false) : keyIn env.diffusersRegistry qb = true := by
  unfold backendRaises at h
  cases hk : keyIn env.diffusersRegistry qb with
  | false => rw [hk] at h; simp at h
  | true => rfl

theorem raises_false_keyIn_transformers {env : Env} {qb : Option String} {t : Registry}
    (h : backendRaises env qb = false) (ht : env.transformersRegistry = some t)
    (hne : t.isEmpty = false) : keyIn t qb = true := by
  unfold backendRaises at h
  rw [ht] at h
  cases hk : keyIn t qb with
  | false => simp [hk, hne] at h
  | true => rfl

theorem wf_backendRaises {env : Env} {qb : Option String}
    (hwf : env.wellFormed = true) :
    backendRaises env qb = !resolvableInConsulted env qb := by
  unfold Env.wellFormed at hwf
  unfold backendRaises resolvableInConsulted
  cases ht : env.transformersRegistry with
  | none =>
    cases keyIn env.diffusersRegistry qb <;> simp
  | some t =>
    rw [ht] at hwf
    simp only [Bool.not_eq_true'] at hwf
    cases h1 : keyIn t qb <;> cases h2 : keyIn env.diffusersRegistry qb <;>
      simp [hwf, h1, h2]

theorem vikib_ok_raises {env : Env} {q : String}
    (h : validate_init_kwargs_in_backends env q = .ok ()) :
    backendRaises env (some q) = false := by
  unfold validate_init_kwargs_in_backends at h
  cases hc : check_backend_availability env (some q) with
  | error e => rw [hc] at h; simp at h
  | ok u => cases u; exact check_ok_iff.mp hc

theorem vikib_ok_transformers {env : Env} {q : String}
    (h : validate_init_kwargs_in_backends env q = .ok ()) :
    env.transformersRegistry ≠ none := by
  intro ht
  unfold validate_init_kwargs_in_backends at h
  rw [ht] at h
  cases hc : check_backend_availability env (some q) with
  | error e => rw [hc] at h; simp at h
  | ok u =>
    cases u
    rw [hc] at h
    cases hl : lookupKey q env.diffusersRegistry with
    | none => rw [hl] at h; simp at h
    | some dcls => rw [hl] at h; simp at h

theorem vikib_error_bnf {env : Env} {q : String} {b : Option String}
    {tl : Option (List String)} {dl : List String}
    (h : validate_init_kwargs_in_backends env q = .error (.backendNotFound b tl dl)) :
    b = some q ∧ backendRaises env b = true ∧
      tl = availableTransformersNames env ∧
      dl = env.diffusersRegistry.map Prod.fst := by
  unfold validate_init_kwargs_in_backends at h
  split at h
  · rename_i e hc
    simp only [Except.error.injEq] at h
    obtain ⟨hr, he⟩ := check_error_iff.mp hc
    rw [h] at he
    cases he
    exact ⟨rfl, hr, rfl, rfl⟩
  · split at h
    · split at h
      · simp at h
      · split at h
        · simp at h
        · split_ifs at h
          all_goals simp at h
    · split at h
      · simp at h
      · simp at h

theorem vma_ok_mem {env : Env} :
    ∀ {M : List (String × MappingEntry)}, validate_mapping_args env M = .ok () →
      ∀ x ∈ M, backendRaises env x.2.quant_backend = false := by
  intro M
  induction M with
  | nil => intro _ x hx; simp at hx
  | cons hd tl ih =>
    obtain ⟨mname, entry⟩ := hd
    intro h x hx
    unfold validate_mapping_args at h
    cases hc : check_backend_availability env entry.quant_backend with
    | error e => rw [hc] at h; simp at h
    | ok u =>
      cases u
      rw [hc] at h
      rcases List.mem_cons.mp hx with hx1 | hx2
      · subst hx1; exact check_ok_iff.mp hc
      · exact ih h x hx2

theorem vma_error_shape {env : Env} :
    ∀ {M : List (String × MappingEntry)} {e : QuantError},
      validate_mapping_args env M = .error e →
      ∃ x ∈ M, backendRaises env x.2.quant_backend = true ∧
        e = .backendNotFound x.2.quant_backend (availableTransformersNames env)
          (env.diffusersRegistry.map Prod.fst) := by
  intro M
  induction M with
  | nil => intro e h; simp [validate_mapping_args] at h
  | cons hd tl ih =>
    obtain ⟨mname, entry⟩ := hd
    intro e h
    unfold validate_mapping_args at h
    cases hc : check_backend_availability env entry.quant_backend with
    | error e' =>
      rw [hc] at h
      simp only [Except.error.injEq] at h
      obtain ⟨hr, he⟩ := check_error_iff.mp hc
      exact ⟨(mname, entry), List.mem_cons_self _ _, hr, by rw [← h, he]⟩
    | ok u =>
      cases u
      rw [hc] at h
      obtain ⟨x, hx, hr, he⟩ := ih h
      exact ⟨x, List.mem_cons_of_mem _ hx, hr, he⟩

theorem vma_first_none {env : Env} :
    ∀ {M : List (String × MappingEntry)},
      (∃ x ∈ M, x.2.quant_backend = none) →
      (∀ x ∈ M, ∀ b, x.2.quant_backend = some b → backendRaises env (some b) = false) →
      validate_mapping_args env M =
        .error (.backendNotFound none (availableTransformersNames env)
          (env.diffusersRegistry.map Prod.fst)) := by
  intro M
  induction M with
  | nil => intro hex _; simp at hex
  | cons hd tl ih =>
    obtain ⟨mname, entry⟩ := hd
    intro hex hres
    unfold validate_mapping_args
    cases hqb : entry.quant_backend with
    | none =>
      have hc : check_backend_availability env none =
          .error (.backendNotFound none (availableTransformersNames env)
            (env.diffusersRegistry.map Prod.fst)) :=
        check_error_iff.mpr ⟨backendRaises_none, rfl⟩
      rw [hc]
    | some b =>
      have hc : check_backend_availability env (some b) = .ok () :=
        check_ok_iff.mpr (hres (mname, entry) (List.mem_cons_self _ _) b hqb)
      rw [hc]
      apply ih
      · obtain ⟨x, hx, hxn⟩ := hex
        rcases List.mem_cons.mp hx with hx1 | hx2
        · subst hx1; rw [hqb] at hxn; cases hxn
        · exact ⟨x, hx2, hxn⟩
      · intro x hx b' hb'
        exact hres x (List.mem_cons_of_mem _ hx) b' hb'

theorem via_ok_iff {env : Env} {p : PipelineQuantizationConfig} :
    validate_init_args env p = .ok () ↔
      (!p.is_granular && strFalsy p.quant_backend) = false ∧
      (p.quant_kwargs.isEmpty && mappingFalsy p.mapping) = false ∧
      validateTopBackend env p.quant_backend = .ok () ∧
      validateMappingOpt env p.mapping = .ok () := by
  unfold validate_init_args
  split_ifs with h1 h2
  · simp [h1]
  · simp [h1, h2]
  · simp only [Bool.not_eq_true] at h1 h2
    simp [h1, h2, exceptSeq_ok_iff]

theorem via_error_cases {env : Env} {p : PipelineQuantizationConfig} {e : QuantError}
    (h : validate_init_args env p = .error e) :
    e = .mustProvideBackend ∨ e = .kwargsAndMappingNone ∨
      validateTopBackend env p.quant_backend = .error e ∨
      (validateTopBackend env p.quant_backend = .ok () ∧
        validateMappingOpt env p.mapping = .error e) := by
  unfold validate_init_args at h
  split_ifs at h
  · simp only [Except.error.injEq] at h
    exact Or.inl h.symm
  · simp only [Except.error.injEq] at h
    exact Or.inr (Or.inl h.symm)
  · rcases exceptSeq_error_iff.mp h with h' | h'
    · exact Or.inr (Or.inr (Or.inl h'))
    · exact Or.inr (Or.inr (Or.inr h'))

theorem construct_ok_iff {env : Env} {a : Option String} {b : Option Kwargs}
    {c : Option (List String)} {d : Option (List (String × MappingEntry))}
    {p : PipelineQuantizationConfig} :
    construct env a b c d = .ok p ↔
      validate_init_args env (initPlan a b c d) = .ok () ∧ p = initPlan a b c d := by
  unfold construct
  cases hv : validate_init_args env (initPlan a b c d) with
  | error e => simp [hv]
  | ok u => cases u; simp [hv, eq_comm]

theorem construct_error_iff {env : Env} {a : Option String} {b : Option Kwargs}
    {c : Option (List String)} {d : Option (List (String × MappingEntry))}
    {e : QuantError} :
    construct env a b c d = .error e ↔
      validate_init_args env (initPlan a b c d) = .error e := by
  unfold construct
  cases hv : validate_init_args env (initPlan a b c d) with
  | error e' => simp [hv, eq_comm]
  | ok u => cases u; simp [hv]

theorem shouldQuantize_iff_spec {p : PipelineQuantizationConfig} {m : String} :
    shouldQuantize p m = true ↔ specShouldQuantize p m := by
  unfold shouldQuantize specShouldQuantize PipelineQuantizationConfig.is_granular
  cases hmt : p.modules_to_quantize with
  | none =>
    cases hmp : p.mapping <;> simp [filterTruthy, filterContains, hmp]
  | some l =>
    cases l with
    | nil =>
      cases hmp : p.mapping <;> simp [filterTruthy, filterContains, hmp]
    | cons a as =>
      cases hc : (a :: as).contains m with
      | true =>
        have hmem : m ∈ a :: as := by
          have := List.elem_iff.mp hc
          simpa using this
        simp [filterTruthy, filterContains, hc, hmem]
      | false =>
        have hmem : m ∉ a :: as := by
          intro hmm
          have : (a :: as).contains m = true := by
            simpa [List.contains] using List.elem_iff.mpr hmm
          rw [this] at hc
          cases hc
        cases hmp : p.mapping <;>
          simp [filterTruthy, filterContains, hc, hmem, hmp]

theorem resolve_hit {env : Env} {p : PipelineQuantizationConfig} {m : String}
    {entry : MappingEntry} {reg : Registry} {cls : ConfigClass} {is_diffusers : Bool}
    (hreg : (if is_diffusers then some env.diffusersRegistry
             else env.transformersRegistry) = some reg)
    (hcov : granularEntry p m = some entry)
    (hcls : getItem reg entry.quant_backend = some cls) :
    resolve_quant_config env p is_diffusers m =
      .ok (some ⟨cls, entry.quant_kwargs.getD []⟩) := by
  unfold resolve_quant_config
  rw [hreg]
  simp [hcov, hcls]

theorem resolve_global_quantize {env : Env} {p : PipelineQuantizationConfig}
    {m : String} {cls : ConfigClass}
    (hcov : granularEntry p m = none)
    (hs : shouldQuantize p m = true)
    (hcls : getItem env.diffusersRegistry p.quant_backend = some cls) :
    resolve_quant_config env p true m = .ok (some ⟨cls, p.quant_kwargs⟩) := by
  unfold resolve_quant_config
  simp [hcov, hs, hcls]

theorem resolve_global_skip {env : Env} {p : PipelineQuantizationConfig} {m : String}
    (hcov : granularEntry p m = none)
    (hs : shouldQuantize p m = false) :
    resolve_quant_config env p true m = .ok none := by
  unfold resolve_quant_config
  simp [hcov, hs]

/-- Decidable equality for `Except` results, so concrete runs of the model
can be checked by `decide`. -/
instance exceptDecEq {ε α : Type} [DecidableEq ε] [DecidableEq α] :
    DecidableEq (Except ε α) := fun a b =>
  match a, b with
  | .error e₁, .error e₂ =>
    if h : e₁ = e₂ then isTrue (by rw [h])
    else isFalse (by intro hc; cases hc; exact h rfl)
  | .ok v₁, .ok v₂ =>
    if h : v₁ = v₂ then isTrue (by rw [h])
    else isFalse (by intro hc; cases hc; exact h rfl)
  | .error _, .ok _ => isFalse (by intro hc; cases hc)
  | .ok _, .error _ => isFalse (by intro hc; cases hc)

/-- Fixture: a configuration class shared by both registries. -/
def bnbCls : ConfigClass := ⟨"BitsAndBytesConfig", ["load_in_8bit"]⟩

/-- Fixture: environment where transformers is available and the two
registries agree on the `bnb` backend. -/
def envBoth : Env := ⟨[("bnb", bnbCls)], some [("bnb", bnbCls)]⟩

/-- Fixture: environment where the transformers library is unavailable. -/
def envNoTransformers : Env := ⟨[("bnb", bnbCls)], none⟩

/-- Fixture: environment where the two registries hold same-named config
classes with diverging constructor parameter sets. -/
def envMismatch : Env :=
  ⟨[("bnb", ⟨"BnbDiffusers", ["load_in_8bit"]⟩)],
   some [("bnb", ⟨"BnbTransformers", ["load_in_4bit"]⟩)]⟩

/-- Fixture: a non-empty keyword-argument dictionary. -/
def kw8bit : Kwargs := [("load_in_8bit", .bool true)]

/-- C3: evaluation at the failing input.  With the transformers library
absent and a top-level backend that the diffusers registry resolves (and
whose parameter set trivially agrees with itself), construction still fails
with the signature-mismatch error: line 70 sets `init_kwargs_transformers`
to `None` and line 83 compares it against the diffusers parameter set, and
`None != set(...)` is always true.  The claim says the signature check must
not fail construction when the transformers registry is not consulted; the
code contradicts that (and its own error message, which speaks of both
libraries), making any plan with a top-level backend unconstructible
without transformers. -/
theorem claim3_eval :
    construct envNoTransformers (some "bnb") (some kw8bit) none none =
      .error .signatureMismatch ∧
    envNoTransformers.transformersAvailable = false ∧
    keyIn envNoTransformers.diffusersRegistry (some "bnb") = true ∧
    sameParamSet bnbCls.params bnbCls.params = true := by
  decide

/-- C6: resolving against the transformers source while the transformers
library is unavailable raises the availability error for every plan and
module name; it never returns the silent `None`. -/
theorem claim6_unavailable_raises {env : Env} {p : PipelineQuantizationConfig}
    {m : String} (h : env.transformersRegistry = none) :
    resolve_quant_config env p false m = .error .transformersUnavailable := by
  unfold resolve_quant_config
  simp [h]

/-- C6 witness: the theorem applied at a concrete unavailable environment. -/
theorem claim6_witness :
    resolve_quant_config envNoTransformers ⟨some "bnb", kw8bit, none, none⟩ false
      "unet" = .error .transformersUnavailable :=
  claim6_unavailable_raises rfl

/-- C7: constructing with neither a top-level backend nor a mapping fails at
construction time with the missing-backend validation error, whatever the
other arguments are. -/
theorem claim7_missing_backend (env : Env) (qk : Option Kwargs)
    (mtq : Option (List String)) :
    construct env none qk mtq none = .error .mustProvideBackend := rfl

/-- C8: resolution is deterministic: two calls of `_resolve_quant_config`
with the same plan, source and module name return equal results (the
embedding is a pure function of its arguments, matching the code, which
reads only immutable attributes and the fixed registries). -/
theorem claim8_deterministic (env : Env) (p : PipelineQuantizationConfig)
    (is_diffusers : Bool) (m : String)
    (r₁ r₂ : Except QuantError (Option ConfigInstance))
    (h₁ : resolve_quant_config env p is_diffusers m = r₁)
    (h₂ : resolve_quant_config env p is_diffusers m = r₂) : r₁ = r₂ := by
  rw [← h₁, ← h₂]

/-- C8 witness: the theorem applied at a concrete plan, evaluating both
calls to the same configuration instance. -/
theorem claim8_witness :
    resolve_quant_config envBoth ⟨some "bnb", kw8bit, none, none⟩ true "unet" =
      .ok (some ⟨bnbCls, kw8bit⟩) :=
  claim8_deterministic envBoth ⟨some "bnb", kw8bit, none, none⟩ true "unet"
    (resolve_quant_config envBoth ⟨some "bnb", kw8bit, none, none⟩ true "unet")
    (.ok (some ⟨bnbCls, kw8bit⟩)) rfl (by decide)

/-- C1 counterexample.  Two constructed plans falsify the claim as stated.
First, a non-granular plan whose `modules_to_quantize` was supplied as the
empty list: the claim's cases (a) and (b) are both false (a filter was
supplied and the module is not in it), so it demands the null result, yet
the code returns a configuration instance (the empty list is falsy, lines
144-147).  Second, a granular plan with no top-level backend and the filter
`["unet"]`: the claim's case (a) holds, so it demands a configuration
instance of the top-level backend's class, yet the code raises a `KeyError`
on the `None` backend at line 152. -/
theorem claim1_counterexample :
    (construct envBoth (some "bnb") (some kw8bit) (some []) none =
        .ok ⟨some "bnb", kw8bit, some [], none⟩ ∧
      resolve_quant_config envBoth ⟨some "bnb", kw8bit, some [], none⟩ true "unet" =
        .ok (some ⟨bnbCls, kw8bit⟩)) ∧
    (construct envBoth none (some kw8bit) (some ["unet"])
        (some [("vae", ⟨some "bnb", some kw8bit⟩)]) =
        .ok ⟨none, kw8bit, some ["unet"], some [("vae", ⟨some "bnb", some kw8bit⟩)]⟩ ∧
      resolve_quant_config envBoth
        ⟨none, kw8bit, some ["unet"], some [("vae", ⟨some "bnb", some kw8bit⟩)]⟩
        true "unet" = .error (.keyError none)) := by
  decide

/-- C1 amended: for every constructed plan whose top-level backend is set and
every module name not covered by a granular entry, `resolve(module,
diffusers)` returns the configuration instance of the class registered for
the top-level backend, built with the plan's `quant_kwargs`, if and only if
a non-empty `modules_to_quantize` list was supplied containing the module,
or the list is absent or empty and the plan is non-granular; in every other
case it returns the null result. -/
theorem claim1_amended_holds {env : Env} {qb : Option String} {qk : Option Kwargs}
    {mtq : Option (List String)} {mp : Option (List (String × MappingEntry))}
    {p : PipelineQuantizationConfig} {q m : String}
    (h : construct env qb qk mtq mp = .ok p)
    (hq : p.quant_backend = some q)
    (hcov : granularEntry p m = none) :
    ∃ cls, lookupKey q env.diffusersRegistry = some cls ∧
      (resolve_quant_config env p true m = .ok (some ⟨cls, p.quant_kwargs⟩) ↔
        specShouldQuantize p m) ∧
      (¬ specShouldQuantize p m → resolve_quant_config env p true m = .ok none) := by
  obtain ⟨hval, hp⟩ := construct_ok_iff.mp h
  subst hp
  have hqb : qb = some q := by simpa [initPlan] using hq
  subst hqb
  have htop' : validate_init_kwargs_in_backends env q = .ok () := by
    simpa [initPlan, validateTopBackend] using (via_ok_iff.mp hval).2.2.1
  have hkey := raises_false_keyIn_diffusers (vikib_ok_raises htop')
  obtain ⟨cls, hcls⟩ : ∃ cls, lookupKey q env.diffusersRegistry = some cls := by
    simpa [keyIn, Option.isSome_iff_exists] using hkey
  have hget : getItem env.diffusersRegistry
      (initPlan (some q) qk mtq mp).quant_backend = some cls := by
    simp [initPlan, getItem, hcls]
  refine ⟨cls, hcls, ?_, ?_⟩
  · constructor
    · intro hres
      by_contra hspec
      have hsb : shouldQuantize (initPlan (some q) qk mtq mp) m = false := by
        cases hb : shouldQuantize (initPlan (some q) qk mtq mp) m
        · rfl
        · exact absurd (shouldQuantize_iff_spec.mp hb) hspec
      rw [resolve_global_skip hcov hsb] at hres
      simp at hres
    · intro hspec
      exact resolve_global_quantize hcov (shouldQuantize_iff_spec.mpr hspec) hget
  · intro hspec
    have hsb : shouldQuantize (initPlan (some q) qk mtq mp) m = false := by
      cases hb : shouldQuantize (initPlan (some q) qk mtq mp) m
      · rfl
      · exact absurd (shouldQuantize_iff_spec.mp hb) hspec
    exact resolve_global_skip hcov hsb

/-- C1 witness: the amended theorem applied to a concrete non-granular plan
with inclusion list `["unet"]`. -/
theorem claim1_witness :
    ∃ cls, lookupKey "bnb" envBoth.diffusersRegistry = some cls ∧
      (resolve_quant_config envBoth ⟨some "bnb", kw8bit, some ["unet"], none⟩
          true "unet" =
        .ok (some ⟨cls, (⟨some "bnb", kw8bit, some ["unet"], none⟩ :
            PipelineQuantizationConfig).quant_kwargs⟩) ↔
        specShouldQuantize ⟨some "bnb", kw8bit, some ["unet"], none⟩ "unet") ∧
      (¬ specShouldQuantize ⟨some "bnb", kw8bit, some ["unet"], none⟩ "unet" →
        resolve_quant_config envBoth ⟨some "bnb", kw8bit, some ["unet"], none⟩
          true "unet" = .ok none) :=
  @claim1_amended_holds envBoth (some "bnb") (some kw8bit) (some ["unet"]) none
    ⟨some "bnb", kw8bit, some ["unet"], none⟩ "bnb" "unet" (by decide) rfl rfl

/-- C2: on a constructed granular plan, a module with a `mapping` entry
resolves to an instance of the class registered under that entry's backend
in the requested source's registry, built with the entry's per-module
`quant_kwargs` (defaulting to empty); the plan's top-level backend plays no
part in the result.  The well-formedness hypothesis records that an
available transformers registry is non-empty, as in the real library. -/
theorem claim2_granular_precedence {env : Env} {qb : Option String}
    {qk : Option Kwargs} {mtq : Option (List String)}
    {M : List (String × MappingEntry)} {p : PipelineQuantizationConfig}
    {entry : MappingEntry} {m : String} {is_diffusers : Bool} {reg : Registry}
    (hwf : env.wellFormed = true)
    (h : construct env qb qk mtq (some M) = .ok p)
    (he : lookupKey m M = some entry)
    (hreg : (if is_diffusers then some env.diffusersRegistry
             else env.transformersRegistry) = some reg) :
    ∃ cls, getItem reg entry.quant_backend = some cls ∧
      resolve_quant_config env p is_diffusers m =
        .ok (some ⟨cls, entry.quant_kwargs.getD []⟩) := by
  obtain ⟨hval, hp⟩ := construct_ok_iff.mp h
  subst hp
  have hvma : validate_mapping_args env M = .ok () := by
    simpa [initPlan, validateMappingOpt] using (via_ok_iff.mp hval).2.2.2
  have hraises := vma_ok_mem hvma (m, entry) (lookupKey_mem he)
  have hIn : keyIn reg entry.quant_backend = true := by
    cases is_diffusers with
    | true =>
      have hregD : reg = env.diffusersRegistry := by
        simp at hreg
        exact hreg.symm
      rw [hregD]
      exact raises_false_keyIn_diffusers hraises
    | false =>
      have hregT : env.transformersRegistry = some reg := by simpa using hreg
      have hne : reg.isEmpty = false := by
        unfold Env.wellFormed at hwf
        rw [hregT] at hwf
        simpa using hwf
      exact raises_false_keyIn_transformers hraises hregT hne
  obtain ⟨b, hb⟩ : ∃ b, entry.quant_backend = some b := by
    cases hqb : entry.quant_backend with
    | none => rw [hqb, backendRaises_none] at hraises; cases hraises
    | some b => exact ⟨b, rfl⟩
  obtain ⟨cls, hcls⟩ : ∃ cls, lookupKey b reg = some cls := by
    rw [hb] at hIn
    simpa [keyIn, Option.isSome_iff_exists] using hIn
  have hget : getItem reg entry.quant_backend = some cls := by
    simp [getItem, hb, hcls]
  refine ⟨cls, hget, ?_⟩
  exact resolve_hit hreg (by simp [granularEntry, initPlan, he]) hget

/-- C2 witness: the theorem applied to a concrete granular plan whose
`unet` entry names the `bnb` backend, resolved from the diffusers source
with the transformers library absent. -/
theorem claim2_witness :
    ∃ cls, getItem envNoTransformers.diffusersRegistry
        ((⟨some "bnb", some kw8bit⟩ : MappingEntry).quant_backend) = some cls ∧
      resolve_quant_config envNoTransformers
        ⟨none, [], none, some [("unet", ⟨some "bnb", some kw8bit⟩)]⟩ true "unet" =
        .ok (some ⟨cls, (⟨some "bnb", some kw8bit⟩ : MappingEntry).quant_kwargs.getD []⟩) :=
  @claim2_granular_precedence envNoTransformers none none none
    [("unet", ⟨some "bnb", some kw8bit⟩)]
    ⟨none, [], none, some [("unet", ⟨some "bnb", some kw8bit⟩)]⟩
    ⟨some "bnb", some kw8bit⟩ "unet" true envNoTransformers.diffusersRegistry
    (by decide) (by decide) (by decide) rfl

/-- C9: a non-granular plan constructed with an explicitly empty
`modules_to_quantize` list quantizes every module: the empty list is falsy
in Python, so the code treats it like an absent list (quantize-all), not as
an empty inclusion list. -/
theorem claim9_empty_list_quantizes_all {env : Env} {qb : Option String}
    {qk : Option Kwargs} {p : PipelineQuantizationConfig}
    (h : construct env qb qk (some []) none = .ok p) :
    ∃ q cls, p.quant_backend = some q ∧
      lookupKey q env.diffusersRegistry = some cls ∧
      ∀ m, resolve_quant_config env p true m = .ok (some ⟨cls, p.quant_kwargs⟩) := by
  obtain ⟨hval, hp⟩ := construct_ok_iff.mp h
  subst hp
  have h1 := (via_ok_iff.mp hval).1
  have h1' : strFalsy qb = false := by
    simpa [initPlan, PipelineQuantizationConfig.is_granular] using h1
  obtain ⟨q, hq⟩ : ∃ q, qb = some q := by
    cases qb with
    | none => simp [strFalsy] at h1'
    | some q => exact ⟨q, rfl⟩
  subst hq
  have htop' : validate_init_kwargs_in_backends env q = .ok () := by
    simpa [initPlan, validateTopBackend] using (via_ok_iff.mp hval).2.2.1
  have hkey := raises_false_keyIn_diffusers (vikib_ok_raises htop')
  obtain ⟨cls, hcls⟩ : ∃ cls, lookupKey q env.diffusersRegistry = some cls := by
    simpa [keyIn, Option.isSome_iff_exists] using hkey
  refine ⟨q, cls, by simp [initPlan], hcls, ?_⟩
  intro m
  apply resolve_global_quantize
  · simp [granularEntry, initPlan]
  · simp [shouldQuantize, initPlan, filterTruthy, PipelineQuantizationConfig.is_granular]
  · simp [getItem, initPlan, hcls]

/-- C9 witness: the theorem applied to a concrete plan built with the empty
inclusion list. -/
theorem claim9_witness :
    ∃ q cls,
      (⟨some "bnb", kw8bit, some [], none⟩ :
        PipelineQuantizationConfig).quant_backend = some q ∧
      lookupKey q envBoth.diffusersRegistry = some cls ∧
      ∀ m, resolve_quant_config envBoth ⟨some "bnb", kw8bit, some [], none⟩ true m =
        .ok (some ⟨cls, (⟨some "bnb", kw8bit, some [], none⟩ :
          PipelineQuantizationConfig).quant_kwargs⟩) :=
  @claim9_empty_list_quantizes_all envBoth (some "bnb") (some kw8bit)
    ⟨some "bnb", kw8bit, some [], none⟩ (by decide)

/-- C4 counterexample: constructing in granular mode with an empty `mapping`
but a non-empty `quant_kwargs` succeeds — the only guard that can reject an
empty mapping is line 51, `not quant_kwargs and not mapping`, and a truthy
`quant_kwargs` disables it — falsifying the claim that an empty mapping
fails regardless of `quant_kwargs`. -/
theorem claim4_counterexample :
    construct envBoth none (some kw8bit) none (some []) =
      .ok ⟨none, kw8bit, none, some []⟩ := by
  decide

/-- C4 amended: construction with an empty `mapping` fails (with the
kwargs-and-mapping validation error) exactly when the normalised
`quant_kwargs` is also empty; with non-empty `quant_kwargs` and no
top-level backend the empty mapping passes validation and yields a plan. -/
theorem claim4_amended_holds (env : Env) (qb : Option String)
    (qk : Option Kwargs) (mtq : Option (List String)) :
    (qk.getD [] = [] →
      construct env qb qk mtq (some []) = .error .kwargsAndMappingNone) ∧
    (qk.getD [] ≠ [] →
      construct env none qk mtq (some []) =
        .ok (initPlan none qk mtq (some []))) := by
  constructor
  · intro hk
    apply construct_error_iff.mpr
    unfold validate_init_args
    simp [initPlan, PipelineQuantizationConfig.is_granular, hk, mappingFalsy]
  · intro hk
    apply construct_ok_iff.mpr
    refine ⟨?_, rfl⟩
    apply via_ok_iff.mpr
    refine ⟨?_, ?_, ?_, ?_⟩
    · simp [initPlan, PipelineQuantizationConfig.is_granular]
    · simp [initPlan, hk]
    · simp [initPlan, validateTopBackend]
    · simp [initPlan, validateMappingOpt, validate_mapping_args]

/-- C4 witness: the amended theorem applied at concrete inputs — empty
kwargs with empty mapping is rejected, non-empty kwargs with empty mapping
is accepted. -/
theorem claim4_witness :
    construct envBoth (some "bnb") none none (some []) =
      .error .kwargsAndMappingNone ∧
    construct envBoth none (some kw8bit) none (some []) =
      .ok (initPlan none (some kw8bit) none (some [])) :=
  ⟨(claim4_amended_holds envBoth (some "bnb") none none).1 rfl,
   (claim4_amended_holds envBoth none (some kw8bit) none).2 (by decide)⟩

theorem initPlan_quant_backend {a : Option String} {b : Option Kwargs}
    {c : Option (List String)} {d : Option (List (String × MappingEntry))} :
    (initPlan a b c d).quant_backend = a := rfl

theorem initPlan_quant_kwargs {a : Option String} {b : Option Kwargs}
    {c : Option (List String)} {d : Option (List (String × MappingEntry))} :
    (initPlan a b c d).quant_kwargs = b.getD [] := rfl

theorem initPlan_mapping {a : Option String} {b : Option Kwargs}
    {c : Option (List String)} {d : Option (List (String × MappingEntry))} :
    (initPlan a b c d).mapping = d := rfl

/-- C5 counterexample: a plan referencing the unresolvable top-level backend
`bogus` (with no kwargs and no mapping) fails construction, but with the
kwargs-and-mapping emptiness error of line 51, which neither names `bogus`
nor enumerates any registry — the emptiness validations run before the
backend checks, so the claim's promised unknown-backend message is not
produced. -/
theorem claim5_counterexample :
    (some "bogus") ∈ referencedBackends (initPlan (some "bogus") none none none) ∧
    resolvableInConsulted envNoTransformers (some "bogus") = false ∧
    construct envNoTransformers (some "bogus") none none none =
      .error .kwargsAndMappingNone := by
  decide

/-- C5 amended: when some backend referenced by the plan (top-level or in a
mapping entry) is unresolvable in the consulted registries, construction
fails; and whenever construction reports the unknown-backend error, that
error names a referenced, unresolvable backend and carries the full list of
available backend names from the diffusers registry, plus the transformers
registry's names exactly when that library is available.  Earlier
validation errors (missing backend, emptiness, signature mismatch) may
preempt the unknown-backend report. -/
theorem claim5_amended_holds {env : Env} {qb : Option String} {qk : Option Kwargs}
    {mtq : Option (List String)} {mp : Option (List (String × MappingEntry))}
    (hwf : env.wellFormed = true)
    (hbad : ∃ b ∈ referencedBackends (initPlan qb qk mtq mp),
      resolvableInConsulted env b = false) :
    (∃ e, construct env qb qk mtq mp = .error e) ∧
    (∀ b tl dl, construct env qb qk mtq mp = .error (.backendNotFound b tl dl) →
      b ∈ referencedBackends (initPlan qb qk mtq mp) ∧
      resolvableInConsulted env b = false ∧
      tl = availableTransformersNames env ∧
      dl = env.diffusersRegistry.map Prod.fst) := by
  constructor
  · cases hc : construct env qb qk mtq mp with
    | error e => exact ⟨e, rfl⟩
    | ok p =>
      exfalso
      obtain ⟨hval, _⟩ := construct_ok_iff.mp hc
      obtain ⟨b, hbm, hbr⟩ := hbad
      have hraises : backendRaises env b = false := by
        simp only [referencedBackends, initPlan_quant_backend, initPlan_mapping,
          List.mem_append] at hbm
        rcases hbm with hleft | hright
        · rcases qb with _ | q
          · simp at hleft
          · simp at hleft
            subst hleft
            have htop' : validate_init_kwargs_in_backends env q = .ok () := by
              simpa [initPlan_quant_backend, validateTopBackend] using
                (via_ok_iff.mp hval).2.2.1
            exact vikib_ok_raises htop'
        · rcases mp with _ | M
          · simp at hright
          · simp only [List.mem_map] at hright
            obtain ⟨x, hx, hxb⟩ := hright
            have hvma : validate_mapping_args env M = .ok () := by
              simpa [initPlan_mapping, validateMappingOpt] using
                (via_ok_iff.mp hval).2.2.2
            rw [← hxb]
            exact vma_ok_mem hvma x hx
      rw [wf_backendRaises hwf, hbr] at hraises
      simp at hraises
  · intro b tl dl hc
    have hval := construct_error_iff.mp hc
    rcases via_error_cases hval with h1 | h2 | h3 | h4
    · cases h1
    · cases h2
    · rcases qb with _ | q
      · simp [initPlan_quant_backend, validateTopBackend] at h3
      · have h3' : validate_init_kwargs_in_backends env q =
            .error (.backendNotFound b tl dl) := by
          simpa [initPlan_quant_backend, validateTopBackend] using h3
        obtain ⟨hbq, hbr, htl, hdl⟩ := vikib_error_bnf h3'
        refine ⟨?_, ?_, htl, hdl⟩
        · simp [referencedBackends, initPlan_quant_backend, initPlan_mapping, hbq]
        · rw [wf_backendRaises hwf] at hbr
          simp only [Bool.not_eq_true'] at hbr
          exact hbr
    · obtain ⟨_, hmerr⟩ := h4
      rcases mp with _ | M
      · simp [initPlan_mapping, validateMappingOpt] at hmerr
      · have hmerr' : validate_mapping_args env M =
            .error (.backendNotFound b tl dl) := by
          simpa [initPlan_mapping, validateMappingOpt] using hmerr
        obtain ⟨x, hx, hbr, he⟩ := vma_error_shape hmerr'
        injection he with h1' h2' h3'
        refine ⟨?_, ?_, h2', h3'⟩
        · simp only [referencedBackends, initPlan_quant_backend, initPlan_mapping,
            List.mem_append, List.mem_map]
          right
          exact ⟨x, hx, h1'.symm⟩
        · rw [h1']
          rw [wf_backendRaises hwf] at hbr
          simp only [Bool.not_eq_true'] at hbr
          exact hbr

/-- C5 witness: the amended theorem applied to a plan naming the
unresolvable top-level backend `bogus` with non-empty kwargs, in an
environment without transformers. -/
theorem claim5_witness :
    (∃ e, construct envNoTransformers (some "bogus") (some kw8bit) none none =
      .error e) ∧
    (∀ b tl dl, construct envNoTransformers (some "bogus") (some kw8bit) none none =
        .error (.backendNotFound b tl dl) →
      b ∈ referencedBackends (initPlan (some "bogus") (some kw8bit) none none) ∧
      resolvableInConsulted envNoTransformers b = false ∧
      tl = availableTransformersNames envNoTransformers ∧
      dl = envNoTransformers.diffusersRegistry.map Prod.fst) :=
  @claim5_amended_holds envNoTransformers (some "bogus") (some kw8bit) none none
    (by decide) ⟨some "bogus", by decide, by decide⟩

/-- C10 counterexample: a `mapping` entry lacking the per-module backend key
does make construction fail, but not necessarily with the unknown-backend
error — here the top-level backend's signature check (which runs before the
mapping validation) fails first, so construction reports the
signature-mismatch error instead. -/
theorem claim10_counterexample :
    (⟨none, none⟩ : MappingEntry).quant_backend = none ∧
    construct envMismatch (some "bnb") none none (some [("unet", ⟨none, none⟩)]) =
      .error .signatureMismatch := by
  decide

/-- C10 amended: a `mapping` entry lacking the per-module backend key never
yields a plan — construction always fails at validation time, so no
resolution-time failure can occur; and when no earlier validation error
preempts (no top-level backend and every other entry's backend resolvable),
the failure is exactly the unknown-backend error for the missing (`None`)
backend, which is looked up in the registries and not found. -/
theorem claim10_amended_holds {env : Env} {qb : Option String} {qk : Option Kwargs}
    {mtq : Option (List String)} {M : List (String × MappingEntry)}
    {mname : String} {entry : MappingEntry}
    (hmem : (mname, entry) ∈ M) (hnone : entry.quant_backend = none) :
    (∀ p, construct env qb qk mtq (some M) ≠ .ok p) ∧
    ((∀ x ∈ M, ∀ b, x.2.quant_backend = some b → backendRaises env (some b) = false) →
      construct env none qk mtq (some M) =
        .error (.backendNotFound none (availableTransformersNames env)
          (env.diffusersRegistry.map Prod.fst))) := by
  constructor
  · intro p hok
    obtain ⟨hval, _⟩ := construct_ok_iff.mp hok
    have hvma : validate_mapping_args env M = .ok () := by
      simpa [initPlan_mapping, validateMappingOpt] using (via_ok_iff.mp hval).2.2.2
    have hraises := vma_ok_mem hvma (mname, entry) hmem
    rw [hnone, backendRaises_none] at hraises
    cases hraises
  · intro hres
    apply construct_error_iff.mpr
    have hM : mappingFalsy (some M) = false := by
      cases M with
      | nil => simp at hmem
      | cons hd tl => rfl
    have hvma := vma_first_none ⟨(mname, entry), hmem, hnone⟩ hres
    unfold validate_init_args
    simp [initPlan_quant_backend, initPlan_mapping, hM,
      PipelineQuantizationConfig.is_granular, exceptSeq, validateTopBackend,
      validateMappingOpt, hvma]

/-- C10 witness: the amended theorem applied to a concrete singleton mapping
whose entry lacks the backend key, with no top-level backend: construction
can never succeed, and fails with the unknown-backend error for the missing
backend. -/
theorem claim10_witness :
    (∀ p, construct envNoTransformers none (some kw8bit) none
      (some [("unet", ⟨none, none⟩)]) ≠ .ok p) ∧
    construct envNoTransformers none (some kw8bit) none
        (some [("unet", ⟨none, none⟩)]) =
      .error (.backendNotFound none (availableTransformersNames envNoTransformers)
        (envNoTransformers.diffusersRegistry.map Prod.fst)) := by
  have h := @claim10_amended_holds envNoTransformers none (some kw8bit) none
    [("unet", ⟨none, none⟩)] "unet" ⟨none, none⟩ (by decide) rfl
  refine ⟨h.1, h.2 ?_⟩
  intro x hx b hb
  simp at hx
  rw [hx] at hb
  cases hb

end DiffusersQuantizers
